import Mathlib

/-!
A shallow embedding of the scoring-and-progression core of the math
tutoring application: the rule-based answer evaluation
(`answerEvaluationService.ts`), question generation
(`mathQuestionService.ts`), the persisted character-state updates
(`CharacterService.addExperience`), the frontend state update
(`useCharacterState.ts`), and the recommendation engine
(`adaptiveLearningService.ts`).  JavaScript numbers on these paths are
non-negative integers, modelled as `Nat`; JavaScript string containment
(`String.prototype.includes`) is modelled over character lists; the
injected randomness (`Math.random`-based index choice) is modelled by an
explicit natural-number parameter reduced modulo the pool size.
-/

/-- Word boundary used in the model of `answer.trim().split(/\s+/)`. -/
def isWs (c : Char) : Bool := c.isWhitespace

/-- Maximal runs of characters satisfying `p`, in order. -/
def runsBy (p : Char → Bool) : List Char → List (List Char)
  | [] => []
  | c :: rest =>
    let r := runsBy p rest
    if p c then
      match rest with
      | c2 :: _ =>
        if p c2 then
          match r with
          | h :: t => (c :: h) :: t
          | [] => [[c]]
        else [c] :: r
      | [] => [[c]]
    else r

/-- Leading and trailing whitespace removed, modelling `s.trim()`. -/
def trimList (l : List Char) : List Char :=
  ((l.dropWhile isWs).reverse.dropWhile isWs).reverse

/-- Containment of `key` as a contiguous sublist, modelling
`String.prototype.includes` on the underlying character sequences. -/
def isSubstring (key : List Char) : List Char → Bool
  | [] => key.isEmpty
  | c :: rest => key.isPrefixOf (c :: rest) || isSubstring key rest

/-- `s.includes(key)` from JavaScript. -/
def containsSubstr (s key : String) : Bool :=
  isSubstring key.toList s.toList

/-- `answer.trim().split(/\s+/).length` from JavaScript: splitting the
empty string yields the single element `""`, hence count 1; otherwise the
trimmed string has no leading or trailing whitespace and `/\s+/` splits it
into its whitespace-separated words. -/
def wordCount (answer : String) : Nat :=
  let t := trimList answer.toList
  if t = [] then 1
  else (runsBy (fun c => !(isWs c)) t).length

/-- `AnswerQuality`: ordinal result of the rule-based classification. -/
inductive Quality where
  | poor | average | good | excellent
deriving DecidableEq, Repr

/-- Character mood enum from the shared types. -/
inductive Mood where
  | curious | happy | confused | excited
deriving DecidableEq, Repr

/-- Per-topic understanding map (`CharacterState["understanding"]`). -/
structure Understanding where
  algebra : Nat
  geometry : Nat
  functions : Nat
  probability : Nat
deriving DecidableEq, Repr

/-- `understanding[topic as keyof typeof understanding] || 0`. -/
def understandingOf (u : Understanding) (topic : String) : Nat :=
  if topic = "algebra" then u.algebra
  else if topic = "geometry" then u.geometry
  else if topic = "functions" then u.functions
  else if topic = "probability" then u.probability
  else 0

/-- `CharacterState` from `backend/src/types/index.ts`. -/
structure CharacterState where
  name : String
  level : Nat
  experience : Nat
  maxExp : Nat
  understanding : Understanding
  mood : Mood
  totalProblems : Nat
  personality : String
deriving DecidableEq, Repr

/-- `ConversationMessage` from the shared types (timestamp omitted: no
modelled code path reads it). -/
structure ConversationMessage where
  role : String
  content : String
deriving DecidableEq, Repr

/-- Per-topic keyword lists of `hasTopicKeywords`; the lookup
`keywords[topic] || []` yields `[]` for a topic outside the fixed set. -/
def topicKeywords (topic : String) : List String :=
  if topic = "algebra" then
    ["方程式", "解", "変数", "文字", "係数", "項", "因数分解", "展開"]
  else if topic = "geometry" then
    ["図形", "面積", "角度", "直線", "円", "三角形", "四角形", "体積"]
  else if topic = "functions" then
    ["関数", "グラフ", "座標", "傾き", "切片", "変化", "比例", "反比例"]
  else if topic = "probability" then
    ["確率", "場合の数", "順列", "組合せ", "事象", "標本空間"]
  else []

/-- `AnswerEvaluationService.hasTopicKeywords`. -/
def hasTopicKeywords (answer topic : String) : Bool :=
  (topicKeywords topic).any (fun keyword => containsSubstr answer keyword)

/-- `AnswerEvaluationService.hasExamples`. -/
def hasExamples (answer : String) : Bool :=
  ["例えば", "たとえば", "具体的に", "実際に", "つまり", "だから"].any
    (fun indicator => containsSubstr answer indicator)

/-- `AnswerEvaluationService.hasStepByStep`. -/
def hasStepByStep (answer : String) : Bool :=
  ["まず", "次に", "最後に", "①", "②", "③", "1.", "2.", "3.", "手順"].any
    (fun indicator => containsSubstr answer indicator)

/-- `AnswerEvaluationService.isPoliteAndClear`. -/
def isPoliteAndClear (answer : String) : Bool :=
  (["です", "である", "ます", "だと思います", "と考えます"].any
    (fun indicator => containsSubstr answer indicator))
  || (["つまり", "すなわち", "というのは", "ということは"].any
    (fun indicator => containsSubstr answer indicator))

/-- `AnswerEvaluationService.assessAnswerQuality`: point score from the
independent signals, then thresholds 6/4/2. -/
def assessAnswerQuality (answer topic : String) : Quality :=
  let wc := wordCount answer
  let score : Nat :=
    (if wc > 50 then 2 else if wc > 20 then 1 else 0)
    + (if hasTopicKeywords answer topic then 2 else 0)
    + (if hasExamples answer then 1 else 0)
    + (if hasStepByStep answer then 1 else 0)
    + (if isPoliteAndClear answer then 1 else 0)
  if score ≥ 6 then .excellent
  else if score ≥ 4 then .good
  else if score ≥ 2 then .average
  else .poor

/-- Base experience table of `calculateExperienceGain`. -/
def baseExp : Quality → Nat
  | .excellent => 25
  | .good => 15
  | .average => 8
  | .poor => 3

/-- `AnswerEvaluationService.calculateExperienceGain`: base by quality,
length bonus (+5 over 100, else +2 over 50), capped at 30. -/
def calculateExperienceGain (quality : Quality) (answerLength : Nat) : Nat :=
  let e := baseExp quality
  let e := if answerLength > 100 then e + 5
           else if answerLength > 50 then e + 2
           else e
  min e 30

/-- `AnswerEvaluationService.calculateUnderstandingImprovement`. -/
def calculateUnderstandingImprovement : Quality → Nat
  | .excellent => 8
  | .good => 5
  | .average => 3
  | .poor => 1

/-- `AnswerEvaluationService.determineNewMood`: the current mood is a
parameter of the source method but is never read. -/
def determineNewMood (quality : Quality) (currentMood : Mood) : Mood :=
  let _ := currentMood
  match quality with
  | .excellent => .excited
  | .good => .happy
  | .average => .curious
  | .poor => .confused

/-- `positiveResponses` template pool. -/
def positiveResponses : List String :=
  ["すごい！とても分かりやすい説明だったよ！😊 ありがとう！",
   "なるほど〜！そういう考え方もあるんだね！✨ 勉強になった！",
   "わあ！詳しく教えてくれてありがとう！🤩 よく理解できたよ！",
   "その説明、とても上手だね！😄 もっと教えて欲しいな！",
   "ありがとう！君の説明のおかげでよく分かったよ！🌟"]

/-- `encouragingResponses` template pool. -/
def encouragingResponses : List String :=
  ["うんうん、いい感じだね！😊 もう少し詳しく教えてもらえる？",
   "なるほど！でも、ここの部分をもう少し説明してもらえるかな？🤔",
   "いいところに気づいたね！👍 具体例があるともっと分かりやすいかも！",
   "そうそう！その調子だよ！😄 続きも聞かせて！",
   "おお、そこは大事なポイントだね！💡 もう少し深く教えて！"]

/-- `confusedResponses` template pool. -/
def confusedResponses : List String :=
  ["うーん、ちょっと難しくて分からないかも...😅 もう少し簡単に説明してもらえる？",
   "ごめん、ここの部分がよく理解できないな...🤔 別の言い方で教えてくれる？",
   "あれ？ちょっと混乱しちゃった...😵‍💫 もう一度ゆっくり説明してもらえる？",
   "うーん、なんだか難しいね...😓 基本的なところから教えてもらえるかな？",
   "ちょっと待って！頭がこんがらがっちゃった...🌀 整理して教えて！"]

/-- Per-topic comment pools of `getTopicSpecificComment`. -/
def topicComments (topic : String) : List String :=
  if topic = "algebra" then
    ["代数の考え方がよく分かったよ！",
     "方程式の解き方のコツが掴めた気がする！",
     "文字式の意味がクリアになったね！"]
  else if topic = "geometry" then
    ["図形の性質について理解が深まったよ！",
     "空間的な想像力が鍛えられた感じ！",
     "幾何学って面白いんだね！"]
  else if topic = "functions" then
    ["関数のグラフがイメージできるようになった！",
     "数式と図形の関係が見えてきたよ！",
     "変化の様子がよく分かったね！"]
  else if topic = "probability" then
    ["確率の考え方が整理できた！",
     "場合の数を数える方法が分かったよ！",
     "統計的な思考が身についた感じ！"]
  else []

/-- `AnswerEvaluationService.getTopicSpecificComment`; `r` models the
random pool index. -/
def getTopicSpecificComment (topic : String) (quality : Quality) (r : Nat) : String :=
  if quality = .poor then ""
  else
    let tc := topicComments topic
    if tc.isEmpty then ""
    else tc.getD (r % tc.length) ""

/-- `AnswerEvaluationService.generateResponse`; `r1`, `r2` model the two
random pool indices. -/
def generateResponse (quality : Quality) (topic : String) (r1 r2 : Nat) : String :=
  let responses : List String :=
    match quality with
    | .excellent => positiveResponses
    | .good => positiveResponses
    | .average => encouragingResponses
    | .poor => confusedResponses
  let randomResponse := responses.getD (r1 % responses.length) ""
  let topicComment := getTopicSpecificComment topic quality r2
  if topicComment ≠ "" then randomResponse ++ " " ++ topicComment
  else randomResponse

/-- `EvaluationParams` of the answer evaluation service. -/
structure EvaluationParams where
  userAnswer : String
  topic : String
  characterState : CharacterState
  conversationHistory : List ConversationMessage
deriving DecidableEq, Repr

/-- `EvaluationResult` of the answer evaluation service. -/
structure EvaluationResult where
  response : String
  experienceGain : Nat
  newMood : Mood
  understandingImprovement : Nat
deriving DecidableEq, Repr

/-- `AnswerEvaluationService.evaluateWithFallback`: the rule-based path. -/
def evaluateWithFallback (params : EvaluationParams) (r1 r2 : Nat) : EvaluationResult :=
  let quality := assessAnswerQuality params.userAnswer params.topic
  let experienceGain := calculateExperienceGain quality params.userAnswer.length
  let understandingImprovement := calculateUnderstandingImprovement quality
  let newMood := determineNewMood quality params.characterState.mood
  let response := generateResponse quality params.topic r1 r2
  { response := response,
    experienceGain := experienceGain,
    newMood := newMood,
    understandingImprovement := understandingImprovement }

/-- Result shape of `GeminiService.evaluateAnswer` as consumed by the
evaluation service. -/
structure AIEvaluation where
  quality : Quality
  response : String
  mood : Mood
deriving DecidableEq, Repr

/-- The `fallbackEnabled` field: initialised `true` and only ever
reassigned `true` in the constructor's catch branch. -/
def fallbackEnabled : Bool := true

/-- `AnswerEvaluationService.evaluateAnswer`.  `gemini` is the outcome of
the optional AI collaborator: `none` when the Gemini client failed to
initialise (missing configuration), `some (.error e)` when the call threw
(transport error or timeout), `some (.ok ae)` when it succeeded.  The
`Except` result models the method either returning or throwing. -/
def evaluateAnswer (gemini : Option (Except String AIEvaluation))
    (params : EvaluationParams) (r1 r2 : Nat) : Except String EvaluationResult :=
  match gemini with
  | some (.ok ae) =>
      .ok { response := ae.response,
            experienceGain := calculateExperienceGain ae.quality params.userAnswer.length,
            newMood := ae.mood,
            understandingImprovement := calculateUnderstandingImprovement ae.quality }
  | some (.error _) =>
      if fallbackEnabled then .ok (evaluateWithFallback params r1 r2)
      else .error "Answer evaluation service unavailable"
  | none =>
      if fallbackEnabled then .ok (evaluateWithFallback params r1 r2)
      else .error "Answer evaluation service unavailable"

/-- Difficulty tiers of the question templates and recommendations. -/
inductive Difficulty where
  | beginner | intermediate | advanced
deriving DecidableEq, Repr

/-- One topic's entry of `MathQuestionService.questionTemplates`. -/
structure QuestionTemplates where
  beginner : List String
  intermediate : List String
  advanced : List String
deriving DecidableEq, Repr

/-- `MathQuestionService.questionTemplates`: the per-topic pools; lookup
of a topic outside the fixed set yields `none` (`undefined`). -/
def questionTemplates (topic : String) : Option QuestionTemplates :=
  if topic = "algebra" then some
    { beginner :=
        ["2x + 3 = 7 という方程式があるね。これってどうやって解けばいいのかな？🤔",
         "x + 5 = 12 の解き方を教えて！左辺と右辺って何だろう？",
         "文字式って何？なんで数字じゃなくて文字を使うの？",
         "等式の性質について教えて！両辺に同じ数を足しても大丈夫？"],
      intermediate :=
        ["x² - 5x + 6 = 0 を因数分解で解く方法を教えて！",
         "連立方程式 \x7b x + y = 5, 2x - y = 1 \x7d はどう解くの？",
         "二次方程式の解の公式って何？どんな時に使うの？",
         "不等式 2x + 3 > 7 の解き方は普通の方程式と違うの？"],
      advanced :=
        ["判別式を使って二次方程式の解の個数を調べる方法は？",
         "複素数を含む二次方程式はどう解けばいいの？",
         "三次方程式の因数分解にはどんなコツがあるの？",
         "恒等式と方程式の違いって何？"] }
  else if topic = "geometry" then some
    { beginner :=
        ["三角形の面積を求める公式を教えて！底辺×高さ÷2だっけ？",
         "円の面積と円周の求め方は？πって何の数字なの？",
         "四角形にはどんな種類があるの？正方形と長方形の違いは？",
         "角度って何？直角は何度？"],
      intermediate :=
        ["ピタゴラスの定理について教えて！どんな三角形で使えるの？",
         "相似な図形の性質は？面積比と辺の比の関係は？",
         "円周角と中心角の関係を教えて！",
         "三角形の合同条件ってどんなものがあるの？"],
      advanced :=
        ["三角比（sin, cos, tan）って何？どう使うの？",
         "球の体積と表面積の求め方は？",
         "ベクトルって何？図形の問題でどう使うの？",
         "座標平面上での直線の方程式はどう求めるの？"] }
  else if topic = "functions" then some
    { beginner :=
        ["関数って何？y = 2x + 1 のグラフはどんな形？",
         "一次関数の傾きって何を表してるの？",
         "座標って何？(3, 5)の意味を教えて！",
         "グラフの読み取り方を教えて！"],
      intermediate :=
        ["二次関数 y = x² のグラフはなんで放物線になるの？",
         "関数の最大値・最小値ってどう求めるの？",
         "一次関数と二次関数の違いは？",
         "変化の割合って何？どう計算するの？"],
      advanced :=
        ["二次関数の頂点の座標はどう求めるの？",
         "関数の合成って何？f(g(x))はどう計算するの？",
         "逆関数って何？どんな時に存在するの？",
         "指数関数と対数関数の関係を教えて！"] }
  else if topic = "probability" then some
    { beginner :=
        ["サイコロを1回振る時、偶数が出る確率は？",
         "確率って何？どうやって計算するの？",
         "全事象って何？標本空間とは違うの？",
         "コインを投げる実験で確率を考えてみよう！"],
      intermediate :=
        ["サイコロを2回振る時、和が7になる確率は？",
         "順列と組合せの違いを教えて！",
         "重複を許す場合の数え方は？",
         "条件付き確率って何？どう計算するの？"],
      advanced :=
        ["ベイズの定理について教えて！",
         "期待値って何？どうやって計算するの？",
         "正規分布って何？標準偏差との関係は？",
         "独立な事象と排反な事象の違いは？"] }
  else none

/-- The character class `[ぁ-んァ-ヶー一-龠]` of `isSimilarQuestion`. -/
def isJpChar (c : Char) : Bool :=
  (0x3041 ≤ c.toNat && c.toNat ≤ 0x3093)
  || (0x30A1 ≤ c.toNat && c.toNat ≤ 0x30F6)
  || c.toNat == 0x30FC
  || (0x4E00 ≤ c.toNat && c.toNat ≤ 0x9FA0)

/-- Maximal runs of characters satisfying `isJpChar`, modelling
`q.match(/[ぁ-んァ-ヶー一-龠]+/g) || []`. -/
def jpRuns (l : List Char) : List (List Char) :=
  runsBy isJpChar l

/-- The keyword tokens of one question, as strings. -/
def jpTokens (s : String) : List String :=
  (jpRuns s.toList).map (fun l => String.mk l)

/-- `MathQuestionService.isSimilarQuestion`: more than 2 shared tokens of
length above 1. -/
def isSimilarQuestion (q1 q2 : String) : Bool :=
  let keywords1 := jpTokens q1
  let keywords2 := jpTokens q2
  (keywords1.filter (fun word => keywords2.contains word && word.length > 1)).length > 2

/-- `variations` pool of `MathQuestionService.addVariation`. -/
def variations : List String :=
  ["別の角度から考えてみよう！",
   "こんどはこの問題はどうかな？",
   "少し違った問題も見てみよう！",
   "今度はこれについて教えて！"]

/-- `MathQuestionService.addVariation`; `r` models the random index. -/
def addVariation (question : String) (r : Nat) : String :=
  (variations.getD (r % variations.length) "") ++ " " ++ question

/-- `MathQuestionService.adjustQuestionBasedOnHistory`: compare against
the last 3 assistant-authored messages (`role === "マナ"`, `slice(-3)`). -/
def adjustQuestionBasedOnHistory (question : String)
    (history : List ConversationMessage) (r : Nat) : String :=
  let manaMsgs := history.filter (fun msg => msg.role = "マナ")
  let recentQuestions := (manaMsgs.drop (manaMsgs.length - 3)).map (fun msg => msg.content)
  if recentQuestions.any (fun q => isSimilarQuestion question q) then
    addVariation question r
  else question

/-- The pool matching a difficulty tier within one topic's templates. -/
def poolFor (templates : QuestionTemplates) : Difficulty → List String
  | .beginner => templates.beginner
  | .intermediate => templates.intermediate
  | .advanced => templates.advanced

/-- `QuestionGenerationParams` of the question service. -/
structure QuestionGenerationParams where
  topic : String
  characterLevel : Nat
  understanding : Understanding
  conversationHistory : List ConversationMessage
deriving DecidableEq, Repr

/-- The fixed reply returned by `generateQuestion`'s catch branch. -/
def fallbackQuestion : String :=
  "ねえ、今日は何を勉強したい気分？😊 どの分野に興味があるか教えて！"

/-- Body of the `try` block of `MathQuestionService.generateQuestion`:
difficulty from the topic's understanding (thresholds 30/70), template
pool lookup (`throw` on an unknown topic, modelled as `.error`), random
selection, then the history-based adjustment. -/
def generateQuestionTry (params : QuestionGenerationParams) (r1 r2 : Nat) :
    Except String String :=
  let currentUnderstanding := understandingOf params.understanding params.topic
  let difficulty : Difficulty :=
    if currentUnderstanding < 30 then .beginner
    else if currentUnderstanding < 70 then .intermediate
    else .advanced
  match questionTemplates params.topic with
  | none => .error ("Unknown topic: " ++ params.topic)
  | some templates =>
    let questions : List String := poolFor templates difficulty
    let selectedQuestion := questions.getD (r1 % questions.length) ""
    .ok (adjustQuestionBasedOnHistory selectedQuestion params.conversationHistory r2)

/-- `MathQuestionService.generateQuestion`: the whole body is wrapped in
`try`/`catch`; every error is caught and the fixed fallback question is
returned instead. -/
def generateQuestion (params : QuestionGenerationParams) (r1 r2 : Nat) : String :=
  match generateQuestionTry params r1 r2 with
  | .ok q => q
  | .error _ => fallbackQuestion

/-- The persisted `characterState` row operated on by
`CharacterService` (Prisma model; user id and timestamps omitted: no
modelled computation reads them). -/
structure DbCharacterState where
  level : Nat
  experience : Nat
  understandingAlgebra : Nat
  understandingGeometry : Nat
  understandingFunctions : Nat
  understandingProbability : Nat
  mood : String
  totalProblems : Nat
deriving DecidableEq, Repr

/-- The row created by `CharacterService.createCharacterState`. -/
def createCharacterState : DbCharacterState :=
  { level := 1,
    experience := 0,
    understandingAlgebra := 0,
    understandingGeometry := 0,
    understandingFunctions := 0,
    understandingProbability := 0,
    mood := "curious",
    totalProblems := 0 }

/-- `CharacterService.addExperience`: accumulate raw experience, recompute
the level as `floor(newExperience / 100) + 1` capped at one level per
update, bump `totalProblems`, and—when a topic is supplied—add
`min(5, expGain)` to that topic's understanding, capped at 100.  Fields
absent from `updateData` (in particular `mood`) keep their stored value. -/
def addExperience (currentState : DbCharacterState) (expGain : Nat)
    (topic : Option String) : DbCharacterState :=
  let newExperience := currentState.experience + expGain
  let newLevel := newExperience / 100 + 1
  let base : DbCharacterState :=
    { currentState with
      experience := newExperience,
      level := min newLevel (currentState.level + 1),
      totalProblems := currentState.totalProblems + 1 }
  match topic with
  | none => base
  | some t =>
    let understandingGain := min 5 expGain
    if t = "algebra" then
      { base with
        understandingAlgebra := min 100 (currentState.understandingAlgebra + understandingGain) }
    else if t = "geometry" then
      { base with
        understandingGeometry := min 100 (currentState.understandingGeometry + understandingGain) }
    else if t = "functions" then
      { base with
        understandingFunctions := min 100 (currentState.understandingFunctions + understandingGain) }
    else if t = "probability" then
      { base with
        understandingProbability := min 100 (currentState.understandingProbability + understandingGain) }
    else base

/-- `LocalCharacterState` from the frontend types. -/
structure LocalCharacterState where
  name : String
  level : Nat
  experience : Nat
  maxExp : Nat
  understanding : Understanding
  mood : String
  totalProblems : Nat
  personality : String
deriving DecidableEq, Repr

/-- The state updater of `useCharacterState.updateCharacterState` (the
`setCharacter` callback): stores `newExp % 100` as experience, level
`floor(newExp / 100) + 1` with no cap, adds the full `expGain` to the
current topic's understanding capped at 100, overwrites the mood, bumps
`totalProblems`. -/
def updateCharacterState (prev : LocalCharacterState) (expGain : Nat)
    (newMood : String) (currentTopic : String) : LocalCharacterState :=
  let newExp := prev.experience + expGain
  let newLevel := newExp / 100 + 1
  let newUnderstanding :=
    if currentTopic = "algebra" then
      { prev.understanding with algebra := min (prev.understanding.algebra + expGain) 100 }
    else if currentTopic = "geometry" then
      { prev.understanding with geometry := min (prev.understanding.geometry + expGain) 100 }
    else if currentTopic = "functions" then
      { prev.understanding with functions := min (prev.understanding.functions + expGain) 100 }
    else if currentTopic = "probability" then
      { prev.understanding with probability := min (prev.understanding.probability + expGain) 100 }
    else prev.understanding
  { prev with
    experience := newExp % 100,
    level := newLevel,
    understanding := newUnderstanding,
    mood := newMood,
    totalProblems := prev.totalProblems + 1 }

/-- The fixed topic list, in the iteration order of the services
(`Object.entries(topicProficiency)` and the literal topic arrays). -/
def topicsList : List String := ["algebra", "geometry", "functions", "probability"]

/-- `topicProficiency` of `AdaptiveLearningService.calculateLearningMetrics`:
the stored understanding values are read back verbatim. -/
def topicProficiency (characterState : DbCharacterState) : Understanding :=
  { algebra := characterState.understandingAlgebra,
    geometry := characterState.understandingGeometry,
    functions := characterState.understandingFunctions,
    probability := characterState.understandingProbability }

/-- `strugglingTopics`: proficiency below 30, in entry order. -/
def strugglingTopics (proficiency : Understanding) : List String :=
  topicsList.filter (fun t => understandingOf proficiency t < 30)

/-- `masteredTopics`: proficiency at least 80, in entry order. -/
def masteredTopics (proficiency : Understanding) : List String :=
  topicsList.filter (fun t => understandingOf proficiency t ≥ 80)

/-- `topics.reduce((a, b) => proficiency[a] < proficiency[b] ? a : b)`:
the first topic of minimal proficiency. -/
def weakestTopic (proficiency : Understanding) : String :=
  match topicsList with
  | [] => ""
  | t :: rest =>
    rest.foldl
      (fun a b =>
        if understandingOf proficiency a < understandingOf proficiency b then a else b)
      t

/-- `AdaptiveLearningService.getDifficultyForTopic`. -/
def getDifficultyForTopic (proficiency : Nat) : Difficulty :=
  if proficiency < 30 then .beginner
  else if proficiency < 70 then .intermediate
  else .advanced

/-- `AdaptiveRecommendation` of the adaptive learning service. -/
structure AdaptiveRecommendation where
  recommendedTopic : String
  difficultyLevel : Difficulty
  questionType : String
  focusAreas : List String
  reasoning : String
deriving DecidableEq, Repr

/-- `AdaptiveLearningService.generateRecommendations`, as a function of
the per-topic proficiency snapshot it derives `strugglingTopics` and
`masteredTopics` from: one beginner/concept entry per struggling topic,
then—only when no topic is struggling—one application entry for the
weakest topic, then one advanced/problem_solving entry per mastered
topic, truncated to the first 3. -/
def generateRecommendations (proficiency : Understanding) : List AdaptiveRecommendation :=
  let struggling := strugglingTopics proficiency
  let mastered := masteredTopics proficiency
  let strugglingRecs := struggling.map (fun topic =>
    { recommendedTopic := topic,
      difficultyLevel := .beginner,
      questionType := "concept",
      focusAreas := [topic],
      reasoning := topic ++ "の理解度が低いため、基礎概念の復習をお勧めします" })
  let balanceRecs : List AdaptiveRecommendation :=
    if struggling.isEmpty then
      let weakest := weakestTopic proficiency
      [{ recommendedTopic := weakest,
         difficultyLevel := getDifficultyForTopic (understandingOf proficiency weakest),
         questionType := "application",
         focusAreas := [weakest],
         reasoning := "全体的にバランス良く学習されています。" ++ weakest ++ "をさらに伸ばしましょう" }]
    else []
  let masteredRecs := mastered.map (fun topic =>
    { recommendedTopic := topic,
      difficultyLevel := .advanced,
      questionType := "problem_solving",
      focusAreas := [topic],
      reasoning := topic ++ "の基礎は十分理解されています。応用問題に挑戦しましょう" })
  (strugglingRecs ++ balanceRecs ++ masteredRecs).take 3

/-- The frame property of a single `addExperience` update naming a topic:
experience accumulates, the level is the capped recompute, `totalProblems`
bumps by exactly 1, the mood is untouched, only the named topic's
understanding changes — by `min 5 expGain`, capped at 100 — and the
persisted per-call understanding increase never exceeds 5. -/
def AddExperienceFrame (s : DbCharacterState) (expGain : Nat) (topic : String) : Prop :=
  (addExperience s expGain (some topic)).experience = s.experience + expGain
  ∧ (addExperience s expGain (some topic)).level
      = min ((s.experience + expGain) / 100 + 1) (s.level + 1)
  ∧ (addExperience s expGain (some topic)).totalProblems = s.totalProblems + 1
  ∧ (addExperience s expGain (some topic)).mood = s.mood
  ∧ (∀ t ∈ topicsList,
      understandingOf (topicProficiency (addExperience s expGain (some topic))) t
        = if t = topic
          then min 100 (understandingOf (topicProficiency s) t + min 5 expGain)
          else understandingOf (topicProficiency s) t)
  ∧ (∀ t ∈ topicsList,
      understandingOf (topicProficiency (addExperience s expGain (some topic))) t
        ≤ understandingOf (topicProficiency s) t + 5)

/-- The level, experience, mood and problem-count fields written by
`addExperience` do not depend on the topic argument. -/
theorem addExperience_fields (s : DbCharacterState) (expGain : Nat) (topic : Option String) :
    (addExperience s expGain topic).level
      = min ((s.experience + expGain) / 100 + 1) (s.level + 1)
    ∧ (addExperience s expGain topic).experience = s.experience + expGain
    ∧ (addExperience s expGain topic).mood = s.mood
    ∧ (addExperience s expGain topic).totalProblems = s.totalProblems + 1 := by
  cases topic
  · simp [addExperience]
  · simp only [addExperience]
    split_ifs <;> simp

/-- C2: for every quality and every answer length, the computed
experience gain equals `min 30 (base + bonus)` with base table
excellent 25 / good 15 / average 8 / poor 3 and bonus 5 over length 100,
else 2 over length 50, else 0 (the +2 is never added on top of the +5). -/
theorem expGain_min_base_bonus (q : Quality) (n : Nat) :
    calculateExperienceGain q n
      = min 30 (baseExp q + (if n > 100 then 5 else if n > 50 then 2 else 0))
    ∧ baseExp .excellent = 25 ∧ baseExp .good = 15
    ∧ baseExp .average = 8 ∧ baseExp .poor = 3 := by
  refine ⟨?_, rfl, rfl, rfl, rfl⟩
  cases q <;> simp only [calculateExperienceGain, baseExp] <;> split_ifs <;> omega

/-- C3: a single `addExperience` update never raises the stored level by
more than 1, whatever the magnitude of the gain. -/
theorem level_step_le_one (s : DbCharacterState) (expGain : Nat) (topic : Option String) :
    (addExperience s expGain topic).level ≤ s.level + 1 := by
  have h := (addExperience_fields s expGain topic).1
  omega

/-- C8: the new mood is the direct quality mapping
excellent→excited, good→happy, average→curious, poor→confused, and the
prior mood never influences the result. -/
theorem mood_overwrites_prior (q : Quality) (m m' : Mood) :
    determineNewMood q m = determineNewMood q m'
    ∧ determineNewMood .excellent m = .excited
    ∧ determineNewMood .good m = .happy
    ∧ determineNewMood .average m = .curious
    ∧ determineNewMood .poor m = .confused := by
  exact ⟨by cases q <;> rfl, rfl, rfl, rfl, rfl⟩

/-- C5, counterexample: one `addExperience` update of 250 from the
initial state stores experience 250 but level 2 (capped at +1), while
`floor(250 / 100) + 1 = 3`, so the stored level is not the claimed pure
function of the stored experience. -/
theorem level_experience_relation_cex :
    (addExperience createCharacterState 250 (some "algebra")).experience = 250
    ∧ (addExperience createCharacterState 250 (some "algebra")).level = 2
    ∧ ¬ (addExperience createCharacterState 250 (some "algebra")).level
        = (addExperience createCharacterState 250 (some "algebra")).experience / 100 + 1 := by
  decide

/-- C5, amended: the relation `level = floor(experience / 100) + 1` is
preserved by the backend `addExperience` path whenever the gain of a
single update is at most 100 (which covers every gain the evaluator
produces, all at most 30); hence it holds in every state reachable from
the initial state by such updates. -/
theorem level_experience_relation_preserved
    (s : DbCharacterState) (expGain : Nat) (topic : Option String)
    (hinv : s.level = s.experience / 100 + 1) (hg : expGain ≤ 100) :
    (addExperience s expGain topic).level
      = (addExperience s expGain topic).experience / 100 + 1 := by
  obtain ⟨h1, h2, -, -⟩ := addExperience_fields s expGain topic
  rw [h1, h2]
  omega

/-- C5, witness for the amended theorem at the initial state with
gain 50. -/
theorem level_experience_relation_preserved_witness :
    createCharacterState.level = createCharacterState.experience / 100 + 1
    ∧ (50 : Nat) ≤ 100
    ∧ (addExperience createCharacterState 50 (some "algebra")).level
        = (addExperience createCharacterState 50 (some "algebra")).experience / 100 + 1 :=
  ⟨by decide, by decide,
   level_experience_relation_preserved createCharacterState 50 (some "algebra")
     (by decide) (by decide)⟩

/-- C6, counterexample: a snapshot whose stored algebra understanding was
pushed out of range (150) is read back verbatim by the metrics
computation — the value is not clamped to [0,100] on read. -/
theorem understanding_read_unclamped_cex :
    (topicProficiency { createCharacterState with understandingAlgebra := 150 }).algebra = 150
    ∧ ¬ (topicProficiency { createCharacterState with understandingAlgebra := 150 }).algebra ≤ 100 := by
  decide

/-- C6, amended: both write paths clamp the updated topic's understanding
from above at 100 (and `Nat` values are never negative), so a state whose
understanding values are all within [0,100] still has all understanding
values within [0,100] after a backend `addExperience` update or a
frontend `updateCharacterState` update, for every topic argument and
every gain; out-of-range snapshot values, however, are passed through
unchanged on read rather than clamped. -/
theorem understanding_write_clamped
    (s : DbCharacterState) (expGain : Nat) (topic : Option String)
    (p : LocalCharacterState) (gain : Nat) (newMood currentTopic : String)
    (hs : s.understandingAlgebra ≤ 100 ∧ s.understandingGeometry ≤ 100
        ∧ s.understandingFunctions ≤ 100 ∧ s.understandingProbability ≤ 100)
    (hp : p.understanding.algebra ≤ 100 ∧ p.understanding.geometry ≤ 100
        ∧ p.understanding.functions ≤ 100 ∧ p.understanding.probability ≤ 100) :
    ((addExperience s expGain topic).understandingAlgebra ≤ 100
      ∧ (addExperience s expGain topic).understandingGeometry ≤ 100
      ∧ (addExperience s expGain topic).understandingFunctions ≤ 100
      ∧ (addExperience s expGain topic).understandingProbability ≤ 100)
    ∧ ((updateCharacterState p gain newMood currentTopic).understanding.algebra ≤ 100
      ∧ (updateCharacterState p gain newMood currentTopic).understanding.geometry ≤ 100
      ∧ (updateCharacterState p gain newMood currentTopic).understanding.functions ≤ 100
      ∧ (updateCharacterState p gain newMood currentTopic).understanding.probability ≤ 100) := by
  obtain ⟨hs1, hs2, hs3, hs4⟩ := hs
  obtain ⟨hp1, hp2, hp3, hp4⟩ := hp
  constructor
  · cases topic
    · simp [addExperience]
      omega
    · simp only [addExperience]
      split_ifs <;> (try simp) <;> omega
  · simp only [updateCharacterState]
    split_ifs <;> (try simp) <;> omega

/-- C6, witness for the amended theorem: an in-range backend state with a
large gain on algebra, and an in-range frontend state with a large gain
on geometry. -/
theorem understanding_write_clamped_witness :
    (createCharacterState.understandingAlgebra ≤ 100
      ∧ createCharacterState.understandingGeometry ≤ 100
      ∧ createCharacterState.understandingFunctions ≤ 100
      ∧ createCharacterState.understandingProbability ≤ 100)
    ∧ (((⟨"マナ", 1, 0, 100, ⟨98, 97, 0, 0⟩, "curious", 0, "curious_student"⟩ :
          LocalCharacterState)).understanding.algebra ≤ 100
      ∧ ((⟨"マナ", 1, 0, 100, ⟨98, 97, 0, 0⟩, "curious", 0, "curious_student"⟩ :
          LocalCharacterState)).understanding.geometry ≤ 100
      ∧ ((⟨"マナ", 1, 0, 100, ⟨98, 97, 0, 0⟩, "curious", 0, "curious_student"⟩ :
          LocalCharacterState)).understanding.functions ≤ 100
      ∧ ((⟨"マナ", 1, 0, 100, ⟨98, 97, 0, 0⟩, "curious", 0, "curious_student"⟩ :
          LocalCharacterState)).understanding.probability ≤ 100)
    ∧ ((addExperience createCharacterState 9999 (some "algebra")).understandingAlgebra ≤ 100
      ∧ (addExperience createCharacterState 9999 (some "algebra")).understandingGeometry ≤ 100
      ∧ (addExperience createCharacterState 9999 (some "algebra")).understandingFunctions ≤ 100
      ∧ (addExperience createCharacterState 9999 (some "algebra")).understandingProbability ≤ 100)
    ∧ ((updateCharacterState
          ⟨"マナ", 1, 0, 100, ⟨98, 97, 0, 0⟩, "curious", 0, "curious_student"⟩
          9999 "happy" "geometry").understanding.algebra ≤ 100
      ∧ (updateCharacterState
          ⟨"マナ", 1, 0, 100, ⟨98, 97, 0, 0⟩, "curious", 0, "curious_student"⟩
          9999 "happy" "geometry").understanding.geometry ≤ 100
      ∧ (updateCharacterState
          ⟨"マナ", 1, 0, 100, ⟨98, 97, 0, 0⟩, "curious", 0, "curious_student"⟩
          9999 "happy" "geometry").understanding.functions ≤ 100
      ∧ (updateCharacterState
          ⟨"マナ", 1, 0, 100, ⟨98, 97, 0, 0⟩, "curious", 0, "curious_student"⟩
          9999 "happy" "geometry").understanding.probability ≤ 100) :=
  ⟨by decide, by decide,
   (understanding_write_clamped createCharacterState 9999 (some "algebra")
      ⟨"マナ", 1, 0, 100, ⟨98, 97, 0, 0⟩, "curious", 0, "curious_student"⟩
      9999 "happy" "geometry" (by decide) (by decide)).1,
   (understanding_write_clamped createCharacterState 9999 (some "algebra")
      ⟨"マナ", 1, 0, 100, ⟨98, 97, 0, 0⟩, "curious", 0, "curious_student"⟩
      9999 "happy" "geometry" (by decide) (by decide)).2⟩

/-- C9: for every topic of the fixed set, evaluating the empty answer
through the rule-based fallback path classifies it poor (score 0) and
yields experience gain 3, understanding improvement 1, and mood
confused, whatever the state, history and random draws. -/
theorem empty_answer_poor_result (topic : String) (h : topic ∈ topicsList)
    (state : CharacterState) (hist : List ConversationMessage) (r1 r2 : Nat) :
    assessAnswerQuality "" topic = .poor
    ∧ (evaluateWithFallback ⟨"", topic, state, hist⟩ r1 r2).experienceGain = 3
    ∧ (evaluateWithFallback ⟨"", topic, state, hist⟩ r1 r2).understandingImprovement = 1
    ∧ (evaluateWithFallback ⟨"", topic, state, hist⟩ r1 r2).newMood = .confused := by
  simp only [topicsList] at h
  fin_cases h <;> exact ⟨by decide, rfl, rfl, rfl⟩

/-- C9, witness at topic geometry with the fresh character state. -/
theorem empty_answer_poor_result_witness :
    "geometry" ∈ topicsList
    ∧ assessAnswerQuality "" "geometry" = .poor
    ∧ (evaluateWithFallback
        ⟨"", "geometry", ⟨"マナ", 1, 0, 100, ⟨0, 0, 0, 0⟩, .curious, 0, "curious_student"⟩, []⟩
        0 0).experienceGain = 3
    ∧ (evaluateWithFallback
        ⟨"", "geometry", ⟨"マナ", 1, 0, 100, ⟨0, 0, 0, 0⟩, .curious, 0, "curious_student"⟩, []⟩
        0 0).understandingImprovement = 1
    ∧ (evaluateWithFallback
        ⟨"", "geometry", ⟨"マナ", 1, 0, 100, ⟨0, 0, 0, 0⟩, .curious, 0, "curious_student"⟩, []⟩
        0 0).newMood = .confused :=
  ⟨by decide,
   empty_answer_poor_result "geometry" (by decide)
     ⟨"マナ", 1, 0, 100, ⟨0, 0, 0, 0⟩, .curious, 0, "curious_student"⟩ [] 0 0⟩

/-- C10: a single `addExperience` update naming a topic of the fixed set
changes only that topic's understanding (by `min 5 expGain`, capped at
100, hence by at most 5), together with experience, the capped level and
`totalProblems` (+1); the other topics' understanding values and the
mood are unchanged. -/
theorem addExperience_frame (s : DbCharacterState) (expGain : Nat) (topic : String)
    (h : topic ∈ topicsList) : AddExperienceFrame s expGain topic := by
  obtain ⟨h1, h2, h3, h4⟩ := addExperience_fields s expGain (some topic)
  refine ⟨h2, h1, h4, h3, ?_, ?_⟩ <;>
    · intro t ht
      simp only [topicsList] at h ht
      fin_cases h <;> fin_cases ht <;>
        simp [addExperience, understandingOf, topicProficiency]

/-- C10, witness at a concrete mid-game state, gain 8, topic geometry. -/
theorem addExperience_frame_witness :
    "geometry" ∈ topicsList
    ∧ AddExperienceFrame ⟨3, 120, 10, 20, 30, 40, "happy", 7⟩ 8 "geometry" :=
  ⟨by decide, addExperience_frame ⟨3, 120, 10, 20, 30, 40, "happy", 7⟩ 8 "geometry" (by decide)⟩

/-- C7, counterexample: a topic outside the fixed set is not surfaced to
the caller as an error: `generateQuestion` throws internally but its own
catch branch returns the generic fallback question, and the rule-based
evaluation silently proceeds with an empty keyword list and a normal
result. -/
theorem unknown_topic_not_surfaced_cex :
    generateQuestion ⟨"calculus", 1, ⟨0, 0, 0, 0⟩, []⟩ 0 0 = fallbackQuestion
    ∧ generateQuestionTry ⟨"calculus", 1, ⟨0, 0, 0, 0⟩, []⟩ 0 0
        = .error "Unknown topic: calculus"
    ∧ hasTopicKeywords "方程式を解きます" "calculus" = false
    ∧ (evaluateWithFallback
        ⟨"", "calculus", ⟨"マナ", 1, 0, 100, ⟨0, 0, 0, 0⟩, .curious, 0, "curious_student"⟩, []⟩
        0 0).experienceGain = 3 := by
  exact ⟨rfl, rfl, by decide, rfl⟩

/-- C7, amended: for every topic outside the fixed set, the question
service raises its internal `Unknown topic` error but catches it itself
and returns the fixed fallback question to the caller, and the keyword
heuristic of the evaluation service treats the topic as having no
keywords and proceeds; no error reaches the caller. -/
theorem unknown_topic_silent_fallback
    (topic answer : String) (h : topic ∉ topicsList)
    (lvl : Nat) (u : Understanding) (hist : List ConversationMessage) (r1 r2 : Nat) :
    generateQuestionTry ⟨topic, lvl, u, hist⟩ r1 r2 = .error ("Unknown topic: " ++ topic)
    ∧ generateQuestion ⟨topic, lvl, u, hist⟩ r1 r2 = fallbackQuestion
    ∧ hasTopicKeywords answer topic = false := by
  simp only [topicsList, List.mem_cons, List.not_mem_nil, or_false, not_or] at h
  obtain ⟨h1, h2, h3, h4⟩ := h
  have ht : questionTemplates topic = none := by
    simp [questionTemplates, h1, h2, h3, h4]
  refine ⟨?_, ?_, ?_⟩
  · simp [generateQuestionTry, ht]
  · simp [generateQuestion, generateQuestionTry, ht]
  · simp [hasTopicKeywords, topicKeywords, h1, h2, h3, h4]

/-- C7, witness for the amended theorem at topic `calculus`. -/
theorem unknown_topic_silent_fallback_witness :
    "calculus" ∉ topicsList
    ∧ (generateQuestionTry ⟨"calculus", 2, ⟨10, 20, 30, 40⟩, []⟩ 1 2
        = .error ("Unknown topic: " ++ "calculus")
      ∧ generateQuestion ⟨"calculus", 2, ⟨10, 20, 30, 40⟩, []⟩ 1 2 = fallbackQuestion
      ∧ hasTopicKeywords "面積" "calculus" = false) :=
  ⟨by decide,
   unknown_topic_silent_fallback "calculus" "面積" (by decide) 2 ⟨10, 20, 30, 40⟩ [] 1 2⟩

/-- Selecting by a random index reduced modulo the pool size from a pool
of non-empty strings yields a non-empty string. -/
theorem getD_length_pos (l : List String) (r : Nat) (hl : 0 < l.length)
    (h : ∀ x ∈ l, 0 < x.length) :
    0 < (l.getD (r % l.length) "").length := by
  have hidx : r % l.length < l.length := Nat.mod_lt _ hl
  rw [List.getD_eq_getElem l _ hidx]
  exact h _ (List.getElem_mem hidx)

/-- The history-based adjustment preserves non-emptiness: it returns the
question itself or prepends a variation phrase and a space. -/
theorem adjustQuestion_length_pos (question : String)
    (history : List ConversationMessage) (r : Nat)
    (hq : 0 < question.length) :
    0 < (adjustQuestionBasedOnHistory question history r).length := by
  simp only [adjustQuestionBasedOnHistory]
  split
  · unfold addVariation
    rw [String.length_append, String.length_append]
    omega
  · exact hq

/-- Every difficulty pool of every known topic's templates is non-empty
and holds only non-empty questions. -/
theorem questionTemplates_pools (topic : String) (tmpl : QuestionTemplates)
    (h : questionTemplates topic = some tmpl) (d : Difficulty) :
    0 < (poolFor tmpl d).length ∧ ∀ x ∈ poolFor tmpl d, 0 < x.length := by
  unfold questionTemplates at h
  split_ifs at h <;>
    first
      | exact Option.noConfusion h
      | (injection h with h2
         subst h2
         cases d <;> exact ⟨by decide, by decide⟩)

/-- C1: an AI failure is never surfaced as a failure of the operation:
with no configured client, or with a client whose call throws,
`evaluateAnswer` returns the rule-based fallback `EvaluationResult`
rather than an error; and `generateQuestion` returns a non-empty string
for every topic, understanding snapshot, history and random draw (its
whole body is wrapped in a catch that returns the fixed non-empty
fallback question). -/
theorem ai_failure_never_surfaced (params : EvaluationParams)
    (qparams : QuestionGenerationParams) (e : String) (r1 r2 : Nat) :
    evaluateAnswer none params r1 r2 = .ok (evaluateWithFallback params r1 r2)
    ∧ evaluateAnswer (some (.error e)) params r1 r2
        = .ok (evaluateWithFallback params r1 r2)
    ∧ 0 < (generateQuestion qparams r1 r2).length := by
  refine ⟨rfl, rfl, ?_⟩
  unfold generateQuestion generateQuestionTry
  cases htq : questionTemplates qparams.topic with
  | none =>
    show 0 < fallbackQuestion.length
    decide
  | some templates =>
    obtain ⟨hlen, hall⟩ := questionTemplates_pools qparams.topic templates htq
      (if understandingOf qparams.understanding qparams.topic < 30 then .beginner
       else if understandingOf qparams.understanding qparams.topic < 70 then .intermediate
       else .advanced)
    exact adjustQuestion_length_pos _ qparams.conversationHistory r2
      (getD_length_pos _ r1 hlen hall)

/-- C4, counterexample: with every proficiency in range and at least 80
(algebra lowest at 80), no topic is struggling, the balance entry picks
algebra, and algebra is also emitted as a mastered topic: the truncated
list repeats algebra. -/
theorem recommendations_duplicate_topic_cex :
    ((generateRecommendations ⟨80, 90, 90, 90⟩).map (fun r => r.recommendedTopic))
      = ["algebra", "algebra", "geometry"]
    ∧ ¬ ((generateRecommendations ⟨80, 90, 90, 90⟩).map (fun r => r.recommendedTopic)).Nodup := by
  decide

/-- The reduce `(a, b) => proficiency[a] < proficiency[b] ? a : b` over
the four topics returns a topic of minimal proficiency. -/
theorem weakestTopic_minimal (p : Understanding) :
    ∀ t ∈ topicsList, understandingOf p (weakestTopic p) ≤ understandingOf p t := by
  have hw : understandingOf p (weakestTopic p)
      = min (min (min p.algebra p.geometry) p.functions) p.probability := by
    simp only [weakestTopic, topicsList, List.foldl]
    split_ifs <;> simp_all [understandingOf] <;> omega
  intro t ht
  simp only [topicsList, List.mem_cons, List.not_mem_nil, or_false] at ht
  rcases ht with rfl | rfl | rfl | rfl <;> rw [hw] <;> simp [understandingOf]

/-- C4, amended: the recommendation list always has at most 3 entries,
and its topics are pairwise distinct whenever at least one topic's
proficiency is below 80; when all four topics are at 80 or above, the
lowest-proficiency topic receives both the balance entry and a mastered
entry and can appear twice in the truncated list. -/
theorem recommendations_bounded_nodup (p : Understanding) :
    (generateRecommendations p).length ≤ 3
    ∧ ((∃ t ∈ topicsList, understandingOf p t < 80) →
        ((generateRecommendations p).map (fun r => r.recommendedTopic)).Nodup) := by
  constructor
  · simp only [generateRecommendations]
    rw [List.length_take]
    omega
  · rintro ⟨t0, ht0, hlt⟩
    have hmap : (generateRecommendations p).map (fun r => r.recommendedTopic)
        = (strugglingTopics p
            ++ ((if (strugglingTopics p).isEmpty then [weakestTopic p] else [])
              ++ masteredTopics p)).take 3 := by
      by_cases hs : (strugglingTopics p).isEmpty <;>
        simp [generateRecommendations, hs, List.map_take, List.map_append, List.map_map,
          Function.comp_def]
    rw [hmap]
    refine List.Nodup.sublist (List.take_sublist _ _) ?_
    have hnodup_top : topicsList.Nodup := by decide
    have hnodup_s : (strugglingTopics p).Nodup := List.Nodup.filter _ hnodup_top
    have hnodup_m : (masteredTopics p).Nodup := List.Nodup.filter _ hnodup_top
    by_cases hs : (strugglingTopics p).isEmpty
    · have hse : strugglingTopics p = [] := by
        simpa [List.isEmpty_iff] using hs
      have hwlt : understandingOf p (weakestTopic p) < 80 :=
        lt_of_le_of_lt (weakestTopic_minimal p t0 ht0) hlt
      have hwm : weakestTopic p ∉ masteredTopics p := by
        intro hmem
        have h80 := (List.mem_filter.mp hmem).2
        simp only [ge_iff_le, decide_eq_true_eq] at h80
        omega
      simp [hse, hs, List.nodup_cons, hwm, hnodup_m]
    · have hdisj : (strugglingTopics p).Disjoint (masteredTopics p) := by
        intro a ha hb
        have h30 := (List.mem_filter.mp ha).2
        have h80 := (List.mem_filter.mp hb).2
        simp only [decide_eq_true_eq, ge_iff_le] at h30 h80
        omega
      simp only [hs, Bool.false_eq_true, if_false, List.nil_append]
      exact List.Nodup.append hnodup_s hnodup_m hdisj

/-- C4, witness for the amended theorem at the spec's scenario metrics
(algebra 20, geometry 85, functions 50, probability 50). -/
theorem recommendations_bounded_nodup_witness :
    (∃ t ∈ topicsList, understandingOf ⟨20, 85, 50, 50⟩ t < 80)
    ∧ (generateRecommendations ⟨20, 85, 50, 50⟩).length ≤ 3
    ∧ ((generateRecommendations ⟨20, 85, 50, 50⟩).map (fun r => r.recommendedTopic)).Nodup :=
  ⟨⟨"algebra", by decide, by decide⟩,
   (recommendations_bounded_nodup ⟨20, 85, 50, 50⟩).1,
   (recommendations_bounded_nodup ⟨20, 85, 50, 50⟩).2 ⟨"algebra", by decide, by decide⟩⟩
